import Mathlib

/-!
Verification development for the Coppy clipboard tool (Rust/Tauri sources:
`src-tauri/src/clipboard_listener.rs`, `src-tauri/src/key_listener.rs`,
`src-tauri/src/lib.rs`).  The OS-facing effects (clipboard reads and writes,
window operations, the filesystem) are modelled as explicit inputs and
outputs of pure functions; machine integers are `Nat`/`Int` with explicit
`% 2 ^ w` where wrap-around matters.
-/

namespace Coppy

/-! ### 64-bit helpers

`u64` arithmetic is `Nat` reduced modulo `2 ^ 64`. -/

def mask64 (n : Nat) : Nat := n % 2 ^ 64

def add64 (a b : Nat) : Nat := (a + b) % 2 ^ 64

def xor64 (a b : Nat) : Nat := a ^^^ b

def rotl64 (x r : Nat) : Nat := ((x <<< r) % 2 ^ 64) ||| (x >>> (64 - r))

/-- Little-endian byte decomposition of a `u64` (a Rust `usize` on the 64-bit
targets this program compiles for). -/
def le8 (n : Nat) : List Nat :=
  let m := n % 2 ^ 64
  [m % 256, m / 2 ^ 8 % 256, m / 2 ^ 16 % 256, m / 2 ^ 24 % 256,
   m / 2 ^ 32 % 256, m / 2 ^ 40 % 256, m / 2 ^ 48 % 256, m / 2 ^ 56 % 256]

/-! ### SipHash-1-3

Rust's `std::collections::hash_map::DefaultHasher::new()` is SipHash-1-3 with
both keys zero.  `usize::hash` feeds the 8 little-endian bytes of the value to
the hasher, `u8::hash` feeds the single byte; `finish` pads the tail with the
total length byte and finalizes.  This is a direct translation of that
algorithm. -/

structure SipState where
  v0 : Nat
  v1 : Nat
  v2 : Nat
  v3 : Nat

def sipRound (s : SipState) : SipState :=
  let v0 := add64 s.v0 s.v1
  let v1 := rotl64 s.v1 13
  let v1 := xor64 v1 v0
  let v0 := rotl64 v0 32
  let v2 := add64 s.v2 s.v3
  let v3 := rotl64 s.v3 16
  let v3 := xor64 v3 v2
  let v0 := add64 v0 v3
  let v3 := rotl64 v3 21
  let v3 := xor64 v3 v0
  let v2 := add64 v2 v1
  let v1 := rotl64 v1 17
  let v1 := xor64 v1 v2
  let v2 := rotl64 v2 32
  ⟨v0, v1, v2, v3⟩

/-- Compression of one 8-byte message word (one sip-round, i.e. SipHash-1-3's
`c = 1`). -/
def sipCompress (s : SipState) (m : Nat) : SipState :=
  let s := { s with v3 := xor64 s.v3 m }
  let s := sipRound s
  { s with v0 := xor64 s.v0 m }

/-- Little-endian packing of at most 8 bytes into one word. -/
def packLE (bs : List Nat) : Nat :=
  bs.foldr (fun b acc => acc * 256 + b % 256) 0

/-- Chunks of 8 bytes plus the remaining tail (fewer than 8 bytes). -/
def chunks8 : List Nat → List (List Nat) × List Nat
  | b0 :: b1 :: b2 :: b3 :: b4 :: b5 :: b6 :: b7 :: rest =>
      let p := chunks8 rest
      ([b0, b1, b2, b3, b4, b5, b6, b7] :: p.1, p.2)
  | l => ([], l)

/-- SipHash-1-3 with keys `(0, 0)` over a byte stream: Rust's
`DefaultHasher` value for that stream. -/
def sipHash13 (bytes : List Nat) : Nat :=
  let init : SipState :=
    ⟨0x736f6d6570736575, 0x646f72616e646f6d, 0x6c7967656e657261, 0x7465646279746573⟩
  let p := chunks8 bytes
  let s := p.1.foldl (fun s blk => sipCompress s (packLE blk)) init
  let b := mask64 ((bytes.length % 256) * 2 ^ 56 + packLE p.2)
  let s := sipCompress s b
  let s := { s with v2 := xor64 s.v2 0xff }
  let s := sipRound (sipRound (sipRound s))
  xor64 (xor64 s.v0 s.v1) (xor64 s.v2 s.v3)

/-! ### ClipboardMonitor (`clipboard_listener.rs`) -/

/-- Arboard `ImageData`: dimensions are `usize`, bytes are the RGBA buffer. -/
structure ImageData where
  width : Nat
  height : Nat
  bytes : List Nat
deriving DecidableEq

/-- Sampled bytes fed to the hasher when the buffer is non-empty: first,
middle (`len / 2`), last (`len - 1`). -/
def sampleBytes (bytes : List Nat) : List Nat :=
  if bytes.length ≠ 0 then
    [bytes.getD 0 0, bytes.getD (bytes.length / 2) 0, bytes.getD (bytes.length - 1) 0]
  else []

/-- Image fingerprint computed at the top of `image_to_data_url`:
`DefaultHasher` over `width`, `height`, `bytes.len()` (each 8 LE bytes) and,
for a non-empty buffer, the three sampled bytes. -/
def fingerprint (img : ImageData) : Nat :=
  sipHash13 (le8 img.width ++ le8 img.height ++ le8 img.bytes.length ++ sampleBytes img.bytes)

/-- Modelled from the image crate: `RgbaImage::from_raw(w, h, buf)` succeeds
iff the buffer holds at least `4 * w * h` bytes (its documented "container
not big enough" check, with checked multiplication that can only make the
bound harder to meet); the image consists of the first `4 * w * h` bytes.
The `usize → u32` casts of the caller are the `% 2 ^ 32` reductions. -/
def rgbaFromRaw (w h : Nat) (buf : List Nat) : Option (List Nat) :=
  if 4 * w * h ≤ buf.length then some (buf.take (4 * w * h)) else none

/-- Modelled from the image crate: encoding a `w × h` RGBA image to PNG in
memory succeeds iff both dimensions are non-zero (the PNG format rejects
zero-sized images; writing to a `Vec` cannot otherwise fail).  The byte
output itself is opaque to every claim and is modelled as an injective
serialization. -/
def pngEncode (w h : Nat) (pixels : List Nat) : Option (List Nat) :=
  if w = 0 ∨ h = 0 then none else some (le8 w ++ le8 h ++ pixels)

/-- Base64 alphabet value of a 6-bit group. -/
def b64Char (n : Nat) : Char :=
  if n < 26 then Char.ofNat (65 + n)
  else if n < 52 then Char.ofNat (97 + (n - 26))
  else if n < 62 then Char.ofNat (48 + (n - 52))
  else if n = 62 then '+' else '/'

/-- Standard base64 encoding with padding (the `general_purpose::STANDARD`
engine used by the source). -/
def base64Encode : List Nat → List Char
  | a :: b :: c :: rest =>
      let n := (a % 256) * 65536 + (b % 256) * 256 + c % 256
      b64Char (n / 262144) :: b64Char (n / 4096 % 64) :: b64Char (n / 64 % 64) ::
        b64Char (n % 64) :: base64Encode rest
  | [a, b] =>
      let n := (a % 256) * 65536 + (b % 256) * 256
      [b64Char (n / 262144), b64Char (n / 4096 % 64), b64Char (n / 64 % 64), '=']
  | [a] =>
      let n := (a % 256) * 65536
      [b64Char (n / 262144), b64Char (n / 4096 % 64), '=', '=']
  | [] => []

/-- Translation of `image_to_data_url`: hash the dimensions, length and
sampled bytes; rebuild the RGBA image (dimensions cast `usize → u32`); encode
it to PNG; base64 it into a `data:image/png;base64,` URI.  `none` when the
buffer cannot form the image or PNG encoding fails. -/
def image_to_data_url (img : ImageData) : Option (Nat × String) :=
  let hash := fingerprint img
  match rgbaFromRaw (img.width % 2 ^ 32) (img.height % 2 ^ 32) img.bytes with
  | none => none
  | some pixels =>
    match pngEncode (img.width % 2 ^ 32) (img.height % 2 ^ 32) pixels with
    | none => none
    | some png =>
      some (hash, String.mk ("data:image/png;base64,".toList ++ base64Encode png))

/-- Event payload emitted to the presentation layer (`ClipboardUpdate` with
`type` "text" or "image"). -/
inductive ClipEvent where
  | text (content : String)
  | image (content : String)
deriving DecidableEq

/-- What one poll tick observed on the system clipboard: `get_text()`
succeeded with `s`; or `get_text()` failed and `get_image()` succeeded with
`img` (the source consults the image only when the text read fails); or both
reads failed. -/
inductive ClipRead where
  | text (s : String)
  | image (img : ImageData)
  | unavailable
deriving DecidableEq

/-- Monitor loop state: `last_text` and `last_image_hash` locals of `start`. -/
structure MonitorState where
  last_text : String
  last_image_hash : Nat
deriving DecidableEq

/-- Translation of the body of the steady `loop` in `start`: the events
emitted on one tick and the successor state. -/
def loopTick (read : ClipRead) (s : MonitorState) : List ClipEvent × MonitorState :=
  match read with
  | .text content =>
      if content ≠ s.last_text ∧ content ≠ "" then
        ([ClipEvent.text content], { s with last_text := content })
      else ([], s)
  | .image img =>
      match image_to_data_url img with
      | some (hash, url) =>
          if hash ≠ s.last_image_hash then
            ([ClipEvent.image url], { last_text := "", last_image_hash := hash })
          else ([], s)
      | none => ([], s)
  | .unavailable => ([], s)

/-- Translation of the one-time startup pass of `start` (before the loop):
starting from `last_text = ""`, `last_image_hash = 0`, a successful text read
is emitted unconditionally and recorded; otherwise a successful image read is
emitted when it converts. -/
def startupPass (read : ClipRead) : List ClipEvent × MonitorState :=
  match read with
  | .text content => ([ClipEvent.text content], ⟨content, 0⟩)
  | .image img =>
      match image_to_data_url img with
      | some (hash, url) => ([ClipEvent.image url], ⟨"", hash⟩)
      | none => ([], ⟨"", 0⟩)
  | .unavailable => ([], ⟨"", 0⟩)

/-! ### InputWatcher (`key_listener.rs`) -/

/-- Translation of the qualifying-release branch of `hook_callback`: given
the current time `now` (unix milliseconds as `i64`) and the stored
`LAST_CTRL_RELEASE` value `last`, returns whether the toggle fires and the
new stored value.  The source compares `(now - last) < 400` with no further
guard; on fire it stores `0`, otherwise it stores `now`. -/
def hook_callback_release (now last : Int) : Bool × Int :=
  if now - last < 400 then (true, 0) else (false, now)

/-! ### PasteInjector (`lib.rs`) -/

/-- Body of the `for _ in 0..8` retry loop of `try_set_clipboard_text`, run
over the remaining attempt indices.  `write i = none` is a successful
`set_text` on attempt `i` (the loop clears `last_err` and breaks);
`write i = some e` is a failure with the platform error's debug text `e`
(the loop records the formatted message and sleeps 40 ms). -/
def setTextAttempts (write : Nat → Option String) :
    List Nat → Option String → Option String
  | [], lastErr => lastErr
  | i :: rest, _ =>
      match write i with
      | none => none
      | some e => setTextAttempts write rest (some ("Failed to set clipboard text: " ++ e))

/-- Translation of `try_set_clipboard_text`: `Clipboard::new()` may fail
(`initErr`), then up to 8 `set_text` attempts with a 40 ms sleep after each
failure; the loop breaks on the first success, clearing `last_err`; the
result is the last error if all 8 attempts failed. -/
def try_set_clipboard_text (initErr : Option String) (write : Nat → Option String) :
    Except String Unit :=
  match initErr with
  | some e => .error ("Failed to init clipboard: " ++ e)
  | none =>
      match setTextAttempts write [0, 1, 2, 3, 4, 5, 6, 7] none with
      | some err => .error err
      | none => .ok ()

/-- Outcomes of the five platform steps performed by `set_clipboard_file`
(open, empty, alloc, lock, set-data), each attempted once. -/
structure FileClipOps where
  openOk : Bool
  emptyOk : Bool
  allocOk : Bool
  allocErr : String
  lockOk : Bool
  setDataOk : Bool

/-- Translation of `set_clipboard_file` (Windows, CF_HDROP): a single pass
over the five platform steps, returning the first failure; there is no retry
loop in the source. -/
def set_clipboard_file (ops : FileClipOps) : Except String Unit :=
  if ¬ ops.openOk then .error "Failed to open clipboard"
  else if ¬ ops.emptyOk then .error "Failed to empty clipboard"
  else if ¬ ops.allocOk then .error ("Failed to allocate memory: " ++ ops.allocErr)
  else if ¬ ops.lockOk then .error "Failed to lock memory"
  else if ¬ ops.setDataOk then .error "Failed to set clipboard data"
  else .ok ()

/-- Synthetic keystrokes of `send_ctrl_v`. -/
inductive KeyEvt where
  | ctrlDown
  | vDown
  | vUp
  | ctrlUp
deriving DecidableEq

/-- The `inputs` array of `send_ctrl_v`, in source order: press Ctrl, press
V, release V, release Ctrl. -/
def sendCtrlVInputs : List KeyEvt := [.ctrlDown, .vDown, .vUp, .ctrlUp]

/-- Translation of `send_ctrl_v`: `SendInput` reports `sent` accepted events;
success iff all requested events were accepted. -/
def send_ctrl_v (sent : Nat) : Except String Unit :=
  if sent = sendCtrlVInputs.length then .ok ()
  else .error ("SendInput sent " ++ toString sent ++ " events")

/-- Observable protocol steps of `paste_text`, in execution order. -/
inductive PasteStep where
  | hideWindow
  | clipboardWrite
  | focusRestore
  | settleSleep (ms : Nat)
  | injectKey (k : KeyEvt)
deriving DecidableEq

/-- Translation of `paste_text` (Windows path): hide the main window, write
the text via `try_set_clipboard_text` (propagating its error), restore the
last foreground window, sleep 320 ms, then `send_ctrl_v`; the trace records
the steps actually performed, in order. -/
def paste_text (initErr : Option String) (write : Nat → Option String) (sent : Nat) :
    Except String Unit × List PasteStep :=
  match try_set_clipboard_text initErr write with
  | .error e => (.error e, [.hideWindow, .clipboardWrite])
  | .ok _ =>
      match send_ctrl_v sent with
      | .error e =>
          (.error ("Failed to send Ctrl+V: " ++ e),
           [.hideWindow, .clipboardWrite, .focusRestore, .settleSleep 320] ++
             sendCtrlVInputs.map PasteStep.injectKey)
      | .ok _ =>
          (.ok (),
           [.hideWindow, .clipboardWrite, .focusRestore, .settleSleep 320] ++
             sendCtrlVInputs.map PasteStep.injectKey)

/-! ### Save-image command and folder fallback (`lib.rs`) -/

/-- Filesystem paths as segment lists; `join` is `++`. -/
abbrev FsPath := List String

/-- Environment consumed by `save_bytes_to_default_dir`: the stored
foreground window handle (`key_listener::last_foreground_hwnd`, reading
`LAST_FOREGROUND_HWND`, 0 = never captured), the best-effort Explorer folder
resolution result (`none` = unresolved), the two fallback directory lookups,
the `create_dir_all` and `fs::write` outcomes, and the current unix
millisecond time. -/
structure FsEnv where
  lastHwnd : Nat
  explorerFolder : Option FsPath
  downloadDir : Except String FsPath
  appDataDir : Except String FsPath
  createDirErr : Option String
  writeErr : Option String
  nowMillis : Nat

/-- File produced by a successful save: directory, file name and content. -/
structure SavedFile where
  dir : FsPath
  name : String
  bytes : List Nat
deriving DecidableEq

/-- The `download_dir().or_else(|_| app_data_dir())` fallback chain with its
`map_err` message. -/
def defaultBaseDir (env : FsEnv) : Except String FsPath :=
  match env.downloadDir with
  | .ok d => .ok d
  | .error _ =>
      match env.appDataDir with
      | .ok d => .ok d
      | .error e => .error ("Failed to get output dir: " ++ e)

/-- Translation of `save_bytes_to_default_dir` (Windows path): prefer the
resolved Explorer folder of the stored foreground window when a handle was
captured, else the downloads/app-data fallback; create `<base>/Coppy`; write
`coppy_<millis>.<extension>` there. -/
def save_bytes_to_default_dir (env : FsEnv) (bytes : List Nat) (extension : String) :
    Except String SavedFile :=
  let baseRes :=
    if env.lastHwnd ≠ 0 then
      match env.explorerFolder with
      | some p => Except.ok p
      | none => defaultBaseDir env
    else defaultBaseDir env
  match baseRes with
  | .error e => .error e
  | .ok base =>
      let outDir := base ++ ["Coppy"]
      match env.createDirErr with
      | some e => .error ("Failed to create output dir: " ++ e)
      | none =>
          match env.writeErr with
          | some e => .error ("Failed to write file: " ++ e)
          | none => .ok ⟨outDir, "coppy_" ++ toString env.nowMillis ++ "." ++ extension, bytes⟩

/-- First split of a character list at `c`: Rust's `str::split_once`. -/
def splitOnce (c : Char) : List Char → Option (List Char × List Char)
  | [] => none
  | x :: xs =>
      if x = c then some ([], xs)
      else
        match splitOnce c xs with
        | none => none
        | some (a, b) => some (x :: a, b)

def splitOnceStr (c : Char) (s : String) : Option (String × String) :=
  match splitOnce c s.toList with
  | none => none
  | some (a, b) => some (String.mk a, String.mk b)

/-- Needle matches at the head of the haystack. -/
def matchesAt : List Char → List Char → Bool
  | [], _ => true
  | _ :: _, [] => false
  | c :: cs, h :: hs => c = h && matchesAt cs hs

/-- Substring containment: Rust's `str::contains` with a literal needle. -/
def strContains (hay needle : String) : Bool :=
  go needle.toList hay.toList
where
  go (needle : List Char) : List Char → Bool
  | [] => matchesAt needle []
  | h :: hs => matchesAt needle (h :: hs) || go needle hs

/-- Decoded in-memory image: the pixel content `image::load_from_memory`
produces. -/
structure PixelImage where
  width : Nat
  height : Nat
  pixels : List Nat
deriving DecidableEq

/-- Interface of the image crate as used by `save_image_data_url`:
`load_from_memory` (fallible decode) and PNG re-encoding of a decoded image
(infallible in memory: decoded images have non-zero dimensions, and writing
PNG to a `Vec` cannot fail for them). -/
structure PngCodec where
  decode : List Nat → Option PixelImage
  encode : PixelImage → List Nat

/-- Translation of `save_image_data_url`: split the data URL at the first
comma, base64-decode the payload, choose extension `jpg` when the metadata
mentions `image/jpeg` or `image/jpg` and `png` otherwise; in the `png` case
decode the bytes and re-encode them as PNG; then hand off to
`save_bytes_to_default_dir`. -/
def save_image_data_url (codec : PngCodec) (b64decode : String → Option (List Nat))
    (env : FsEnv) (data_url : String) : Except String SavedFile :=
  match splitOnceStr ',' data_url with
  | none => .error "Invalid data URL"
  | some (meta, b64) =>
      match b64decode b64 with
      | none => .error "Failed to decode base64"
      | some bytes =>
          if strContains meta "image/jpeg" || strContains meta "image/jpg" then
            save_bytes_to_default_dir env bytes "jpg"
          else
            match codec.decode bytes with
            | none => .error "Failed to decode image"
            | some img => save_bytes_to_default_dir env (codec.encode img) "png"

/-- Concrete PNG-codec instance for witnesses: the serialized form is the
two dimensions followed by the pixel bytes. -/
def trivDecode : List Nat → Option PixelImage
  | w :: h :: rest => some ⟨w, h, rest⟩
  | _ => none

def trivEncode (i : PixelImage) : List Nat := i.width :: i.height :: i.pixels

def trivCodec : PngCodec := ⟨trivDecode, trivEncode⟩

end Coppy

namespace Coppy

/-! ## Theorems -/

theorem trivCodec_roundtrip (i : PixelImage) :
    trivCodec.decode (trivCodec.encode i) = some i := rfl

/-- Helper: the hash returned by `image_to_data_url` is the fingerprint of
the image. -/
theorem image_to_data_url_hash (img : ImageData) (p : Nat × String)
    (h : image_to_data_url img = some p) : p.1 = fingerprint img := by
  unfold image_to_data_url at h
  cases hr : rgbaFromRaw (img.width % 2 ^ 32) (img.height % 2 ^ 32) img.bytes with
  | none => rw [hr] at h; cases h
  | some pixels =>
      rw [hr] at h
      dsimp only at h
      cases he : pngEncode (img.width % 2 ^ 32) (img.height % 2 ^ 32) pixels with
      | none => rw [he] at h; cases h
      | some png => rw [he] at h; cases h; rfl

/-- C1 counterexample: on a tick whose text read succeeds with a new
non-empty text, the monitor emits the Text event and updates `last_text`,
but `last_image_hash` keeps its previous (non-idle) value `42` — the claim's
"clears last_image_fingerprint" does not happen in the text branch of the
loop. -/
theorem C1_fingerprint_not_cleared :
    loopTick (.text "a") ⟨"", 42⟩ = ([ClipEvent.text "a"], ⟨"a", 42⟩) ∧ (42 : Nat) ≠ 0 := by
  exact ⟨by decide, by decide⟩

/-- C1 (amended): on every poll tick where the text read succeeds with a
non-empty text different from `last_text`, exactly one Text event carrying
that text is emitted and `last_text` is updated, while
`last_image_fingerprint` is left unchanged (it is not cleared); a further
tick reading the same text emits nothing and leaves the state unchanged. -/
theorem C1_text_change_event (s : MonitorState) (t : String)
    (ht : t ≠ "") (hne : t ≠ s.last_text) :
    loopTick (.text t) s = ([ClipEvent.text t], ⟨t, s.last_image_hash⟩) ∧
    loopTick (.text t) ⟨t, s.last_image_hash⟩ = ([], ⟨t, s.last_image_hash⟩) := by
  constructor
  · simp only [loopTick]
    rw [if_pos ⟨hne, ht⟩]
  · simp only [loopTick]
    rw [if_neg (fun hc => hc.1 rfl)]

/-- C1 witness: concrete instance of `C1_text_change_event`. -/
theorem C1_text_change_event_witness :
    loopTick (.text "a") ⟨"bb", 7⟩ = ([ClipEvent.text "a"], ⟨"a", 7⟩) ∧
    loopTick (.text "a") ⟨"a", 7⟩ = ([], ⟨"a", 7⟩) :=
  C1_text_change_event ⟨"bb", 7⟩ "a" (by decide) (by decide)

/-- C2 counterexample: at a qualifying release with `now = 399` and stored
timestamp `0`, the code fires the toggle even though the claim's guard
`now - last < 400 ∧ last ≠ 0` is false (the source never checks that the
stored timestamp is non-zero). -/
theorem C2_fires_with_zero_timestamp :
    (hook_callback_release 399 0).1 = true ∧
    ¬ ((399 : Int) - 0 < 400 ∧ (0 : Int) ≠ 0) := by
  exact ⟨rfl, by decide⟩

/-- C2 (amended): a qualifying release fires the toggle exactly when
`now - last < 400` — there is no non-zero-timestamp guard; on fire the
stored value resets to `0`, otherwise `now` is recorded.  Consequently a
release at `t = 0` itself fires from the reset state, the follow-up at
`t = 399` fires again, and a follow-up at `t = 401` does not fire and
re-arms from `t = 401`. -/
theorem C2_double_tap_state_machine (now last : Int) :
    ((hook_callback_release now last).1 = true ↔ now - last < 400) ∧
    (hook_callback_release now last).2 = (if now - last < 400 then 0 else now) ∧
    hook_callback_release 0 0 = (true, 0) ∧
    hook_callback_release 399 0 = (true, 0) ∧
    hook_callback_release 401 0 = (false, 401) := by
  refine ⟨?_, ?_, by decide, by decide, by decide⟩
  · unfold hook_callback_release
    split <;> simp_all
  · unfold hook_callback_release
    split <;> simp_all

/-- C4 counterexample: the startup pass emits a Text event with empty
content when the initial text read succeeds with the empty string — the
emptiness guard exists only in the steady loop. -/
theorem C4_startup_emits_empty_text :
    startupPass (.text "") = ([ClipEvent.text ""], ⟨"", 0⟩) := rfl

/-- C4 (amended): the steady polling loop never emits a Text event with
empty content, on any tick and from any state; the one immediate startup
read-and-emit pass, however, propagates the text read verbatim — including
an empty string. -/
theorem C4_no_empty_text_event_in_loop (s : MonitorState) (read : ClipRead) :
    (loopTick read s).1.count (ClipEvent.text "") = 0 ∧
    (∀ t : String, (startupPass (.text t)).1 = [ClipEvent.text t]) := by
  refine ⟨?_, fun t => rfl⟩
  cases read with
  | text t =>
      simp only [loopTick]
      split
      · rename_i hc
        simp [List.count_cons, hc.2]
      · simp
  | image img =>
      simp only [loopTick]
      split
      · split <;> simp [List.count_cons]
      · simp
  | unavailable => simp [loopTick]

/-- C6 (confirmed): two images with identical width, height, byte length and
identical first/middle/last sampled bytes have equal fingerprints, so a tick
reading the second image while the monitor remembers the first one's
fingerprint emits no event and leaves the state unchanged — even when the
interior pixels differ. -/
theorem C6_fingerprint_collision (i1 i2 : ImageData)
    (hw : i1.width = i2.width) (hh : i1.height = i2.height)
    (hl : i1.bytes.length = i2.bytes.length)
    (hs : sampleBytes i1.bytes = sampleBytes i2.bytes) :
    fingerprint i1 = fingerprint i2 ∧
    ∀ s : MonitorState, s.last_image_hash = fingerprint i1 →
      loopTick (.image i2) s = ([], s) := by
  have hfp : fingerprint i1 = fingerprint i2 := by
    unfold fingerprint
    rw [hw, hh, hl, hs]
  refine ⟨hfp, fun s hsl => ?_⟩
  simp only [loopTick]
  cases h : image_to_data_url i2 with
  | none => rfl
  | some p =>
      have hhash : p.1 = s.last_image_hash := by
        rw [image_to_data_url_hash i2 p h, ← hfp, hsl]
      obtain ⟨hash, url⟩ := p
      dsimp only
      rw [if_neg (fun hc => hc hhash)]

/-- C6 witness: concrete instance of `C6_fingerprint_collision` on two 1×2
images that agree on dimensions, length and the three sampled bytes but
differ in interior bytes. -/
theorem C6_fingerprint_collision_witness :
    fingerprint ⟨1, 2, [1, 2, 3, 4, 5, 6, 7, 8]⟩ =
      fingerprint ⟨1, 2, [1, 2, 9, 9, 5, 6, 7, 8]⟩ ∧
    loopTick (.image ⟨1, 2, [1, 2, 9, 9, 5, 6, 7, 8]⟩)
        ⟨"", fingerprint ⟨1, 2, [1, 2, 3, 4, 5, 6, 7, 8]⟩⟩ =
      ([], ⟨"", fingerprint ⟨1, 2, [1, 2, 3, 4, 5, 6, 7, 8]⟩⟩) ∧
    ([1, 2, 3, 4, 5, 6, 7, 8] : List Nat) ≠ [1, 2, 9, 9, 5, 6, 7, 8] := by
  have h := C6_fingerprint_collision ⟨1, 2, [1, 2, 3, 4, 5, 6, 7, 8]⟩
    ⟨1, 2, [1, 2, 9, 9, 5, 6, 7, 8]⟩ rfl rfl rfl (by decide)
  exact ⟨h.1, h.2 _ rfl, by decide⟩

/-- C10 counterexample: a 1×2 image whose buffer holds 12 bytes — a byte
length different from `4 * width * height = 8` — still forms an image (the
buffer is large enough), re-encodes, and the tick emits an Image event and
rewrites the state (`last_text` is cleared from `"x"` to `""`), contrary to
the claim that such a tick emits nothing and leaves the state unchanged. -/
theorem C10_oversized_buffer_still_emits :
    (⟨1, 2, List.replicate 12 0⟩ : ImageData).bytes.length ≠
      4 * (⟨1, 2, List.replicate 12 0⟩ : ImageData).width *
        (⟨1, 2, List.replicate 12 0⟩ : ImageData).height ∧
    (loopTick (.image ⟨1, 2, List.replicate 12 0⟩) ⟨"x", 0⟩).1.length = 1 ∧
    (loopTick (.image ⟨1, 2, List.replicate 12 0⟩) ⟨"x", 0⟩).2.last_text = "" := by
  refine ⟨by decide, by decide, by decide⟩

/-- C10 (amended): when the image read on a tick has a byte buffer too small
to form the width-by-height RGBA image (fewer than `4 * w * h` bytes, with
the dimensions truncated to `u32` as in the source), or PNG re-encoding
fails because a truncated dimension is zero, the monitor emits no event on
that tick and leaves both `last_text` and `last_image_fingerprint`
unchanged.  (Buffers longer than `4 * w * h` do form an image and are not
covered: see the counterexample.) -/
theorem C10_invalid_image_tick_noop (s : MonitorState) (img : ImageData)
    (h : img.bytes.length < 4 * (img.width % 2 ^ 32) * (img.height % 2 ^ 32) ∨
         img.width % 2 ^ 32 = 0 ∨ img.height % 2 ^ 32 = 0) :
    loopTick (.image img) s = ([], s) := by
  have hnone : image_to_data_url img = none := by
    unfold image_to_data_url rgbaFromRaw pngEncode
    rcases h with h | h
    · rw [if_neg (by omega)]
    · norm_num at h ⊢
      have hle : 4 * (img.width % 4294967296) * (img.height % 4294967296) ≤
          img.bytes.length := by
        rcases h with h | h <;> simp [h]
      rw [if_pos hle]
      dsimp only
      rw [if_pos h]
  simp only [loopTick, hnone]

/-- C10 witness: a 1×1 image with an empty buffer (fewer than 4 bytes) is a
no-op tick. -/
theorem C10_invalid_image_tick_noop_witness :
    ([] : List Nat).length < 4 * (1 % 2 ^ 32) * (1 % 2 ^ 32) ∧
    loopTick (.image ⟨1, 1, []⟩) ⟨"x", 5⟩ = ([], ⟨"x", 5⟩) :=
  ⟨by decide, C10_invalid_image_tick_noop ⟨"x", 5⟩ ⟨1, 1, []⟩ (Or.inl (by decide))⟩

/-- C3 counterexample: in an environment where the clipboard is transiently
locked for the first seven attempts and free from the eighth on, the
set-clipboard-text command succeeds — but the set-clipboard-image command's
clipboard write (`set_clipboard_file`) consults only the single outcome of
its one pass (here: `OpenClipboard` fails, which is what the same transient
lock produces on the first attempt) and fails immediately: it has no retry
loop. -/
theorem C3_image_write_not_retried :
    try_set_clipboard_text none (fun n => if n < 7 then some "locked" else none) = .ok () ∧
    set_clipboard_file ⟨false, true, true, "", true, true⟩ =
      .error "Failed to open clipboard" :=
  ⟨rfl, rfl⟩

/-- C3 (amended): the set-clipboard-text command retries the platform write
up to 8 times with a fixed 40 ms backoff — if attempts 1 through 7 fail and
attempt 8 succeeds it reports success, and it fails with the last underlying
error only after all 8 attempts fail; the set-clipboard-image command's
clipboard write (`set_clipboard_file`, the file-drop format) instead makes a
single attempt and fails on its first failing platform step. -/
theorem C3_retry_semantics (write : Nat → Option String) (errs : Nat → String)
    (ops : FileClipOps) (h7 : ∀ n, n < 7 → write n = some (errs n)) :
    (write 7 = none → try_set_clipboard_text none write = .ok ()) ∧
    (write 7 = some (errs 7) →
      try_set_clipboard_text none write =
        .error ("Failed to set clipboard text: " ++ errs 7)) ∧
    (ops.openOk = false → set_clipboard_file ops = .error "Failed to open clipboard") := by
  have e0 := h7 0 (by omega)
  have e1 := h7 1 (by omega)
  have e2 := h7 2 (by omega)
  have e3 := h7 3 (by omega)
  have e4 := h7 4 (by omega)
  have e5 := h7 5 (by omega)
  have e6 := h7 6 (by omega)
  refine ⟨fun h8 => ?_, fun h8 => ?_, fun ho => ?_⟩
  · unfold try_set_clipboard_text
    simp only [setTextAttempts, e0, e1, e2, e3, e4, e5, e6, h8]
  · unfold try_set_clipboard_text
    simp only [setTextAttempts, e0, e1, e2, e3, e4, e5, e6, h8]
  · unfold set_clipboard_file
    rw [ho]
    simp

/-- C3 witness: concrete instance of `C3_retry_semantics` in the
seven-transient-failures environment. -/
theorem C3_retry_semantics_witness :
    try_set_clipboard_text none (fun n => if n < 7 then some "busy" else none) = .ok () ∧
    set_clipboard_file ⟨false, false, true, "", true, true⟩ =
      .error "Failed to open clipboard" := by
  have h := C3_retry_semantics (fun n => if n < 7 then some "busy" else none)
    (fun _ => "busy") ⟨false, false, true, "", true, true⟩
    (fun n hn => by simp [hn])
  exact ⟨h.1 (by simp), h.2.2 rfl⟩

/-- C5 (confirmed): when the clipboard write succeeds, `paste_text` performs
its steps strictly in source order — hide the window, write the clipboard
(with retry), restore foreground focus, sleep 320 ms, then inject
press-Ctrl, press-V, release-V, release-Ctrl — and the command succeeds
exactly when the OS accepts all 4 synthesized events; fewer accepted events
yield an error. -/
theorem C5_paste_text_protocol (initErr : Option String) (write : Nat → Option String)
    (sent : Nat) (hclip : try_set_clipboard_text initErr write = .ok ()) :
    (paste_text initErr write sent).2 =
      [.hideWindow, .clipboardWrite, .focusRestore, .settleSleep 320,
       .injectKey .ctrlDown, .injectKey .vDown, .injectKey .vUp, .injectKey .ctrlUp] ∧
    ((paste_text initErr write sent).1 = .ok () ↔ sent = 4) := by
  unfold paste_text
  rw [hclip]
  unfold send_ctrl_v
  by_cases hs : sent = sendCtrlVInputs.length
  · rw [if_pos hs]
    refine ⟨rfl, ?_⟩
    simp only [sendCtrlVInputs, List.length_cons, List.length_nil] at hs
    simp [hs]
  · rw [if_neg hs]
    refine ⟨rfl, ?_⟩
    constructor
    · intro hok
      cases hok
    · intro h4
      exact absurd (by simp [sendCtrlVInputs, h4]) hs

/-- C5 witness: concrete instance of `C5_paste_text_protocol` with a clean
clipboard write and all 4 events accepted. -/
theorem C5_paste_text_protocol_witness :
    (paste_text none (fun _ => none) 4).2 =
      [.hideWindow, .clipboardWrite, .focusRestore, .settleSleep 320,
       .injectKey .ctrlDown, .injectKey .vDown, .injectKey .vUp, .injectKey .ctrlUp] ∧
    (paste_text none (fun _ => none) 4).1 = .ok () := by
  have h := C5_paste_text_protocol none (fun _ => none) 4 rfl
  exact ⟨h.1, h.2.mpr rfl⟩

/-- C8 (confirmed): when the active-folder resolution is unresolved, or no
foreground window handle was ever captured, the save path still writes the
file under the downloads directory, falling back to the application data
directory — resolution unavailability never makes the save fail. -/
theorem C8_unresolved_folder_never_blocks_save (env : FsEnv) (bytes : List Nat)
    (extension : String)
    (hres : env.explorerFolder = none ∨ env.lastHwnd = 0)
    (hcr : env.createDirErr = none) (hwr : env.writeErr = none) :
    (∀ d, env.downloadDir = .ok d →
      save_bytes_to_default_dir env bytes extension =
        .ok ⟨d ++ ["Coppy"], "coppy_" ++ toString env.nowMillis ++ "." ++ extension, bytes⟩) ∧
    (∀ a e, env.downloadDir = .error e → env.appDataDir = .ok a →
      save_bytes_to_default_dir env bytes extension =
        .ok ⟨a ++ ["Coppy"], "coppy_" ++ toString env.nowMillis ++ "." ++ extension, bytes⟩) := by
  have main : ∀ base : FsPath, defaultBaseDir env = .ok base →
      save_bytes_to_default_dir env bytes extension =
        .ok ⟨base ++ ["Coppy"], "coppy_" ++ toString env.nowMillis ++ "." ++ extension,
          bytes⟩ := by
    intro base hb
    unfold save_bytes_to_default_dir
    rcases hres with h | h
    · by_cases hw : env.lastHwnd = 0
      · simp [hw, hb, hcr, hwr]
      · simp [hw, h, hb, hcr, hwr]
    · simp [h, hb, hcr, hwr]
  constructor
  · intro d hd
    exact main d (by unfold defaultBaseDir; rw [hd])
  · intro a e hdl hada
    exact main a (by unfold defaultBaseDir; rw [hdl, hada])

/-- C8 witness: a captured handle whose folder resolution is unresolved
still saves under `Downloads/Coppy`. -/
theorem C8_unresolved_folder_never_blocks_save_witness :
    save_bytes_to_default_dir ⟨7, none, .ok ["DL"], .error "nope", none, none, 3⟩
        [1, 2] "png" =
      .ok ⟨["DL", "Coppy"], "coppy_3.png", [1, 2]⟩ :=
  (C8_unresolved_folder_never_blocks_save ⟨7, none, .ok ["DL"], .error "nope", none, none, 3⟩
    [1, 2] "png" (Or.inl rfl) rfl rfl).1 ["DL"] rfl

/-- C7 (confirmed): for a valid PNG data URI (metadata not JPEG, base64
payload decodes, the bytes decode as an image), the saved file's bytes
decode to exactly the pixel content the input's bytes decode to — the
decode / re-encode round trip of `save_image_data_url` preserves pixels.
The hypotheses `hrt` states the image library's losslessness of PNG
re-encoding for decoded images. -/
theorem C7_save_image_roundtrip (codec : PngCodec) (b64d : String → Option (List Nat))
    (env : FsEnv) (url meta b64s : String) (bytes : List Nat) (img : PixelImage) (d : FsPath)
    (hrt : ∀ i, codec.decode (codec.encode i) = some i)
    (hsplit : splitOnceStr ',' url = some (meta, b64s))
    (hjpeg : (strContains meta "image/jpeg" || strContains meta "image/jpg") = false)
    (hb : b64d b64s = some bytes)
    (hdec : codec.decode bytes = some img)
    (hhwnd : env.lastHwnd = 0) (hdl : env.downloadDir = .ok d)
    (hcr : env.createDirErr = none) (hwr : env.writeErr = none) :
    ∃ f, save_image_data_url codec b64d env url = .ok f ∧
      codec.decode f.bytes = codec.decode bytes ∧ codec.decode f.bytes = some img := by
  refine ⟨⟨d ++ ["Coppy"], "coppy_" ++ toString env.nowMillis ++ "." ++ "png",
    codec.encode img⟩, ?_, ?_, ?_⟩
  · unfold save_image_data_url
    rw [hsplit]
    dsimp only
    rw [hb]
    dsimp only
    rw [if_neg (by simp [hjpeg])]
    rw [hdec]
    unfold save_bytes_to_default_dir
    simp [hhwnd, defaultBaseDir, hdl, hcr, hwr]
  · dsimp only
    rw [hrt img, hdec]
  · dsimp only
    rw [hrt img]

/-- C7 witness: concrete instance of `C7_save_image_roundtrip` with the
serialization codec. -/
theorem C7_save_image_roundtrip_witness :
    ∃ f, save_image_data_url trivCodec (fun s => if s = "K" then some [1, 1, 3] else none)
        ⟨0, none, .ok ["D"], .error "x", none, none, 9⟩ "data:image/png;base64,K" = .ok f ∧
      trivCodec.decode f.bytes = trivCodec.decode [1, 1, 3] ∧
      trivCodec.decode f.bytes = some ⟨1, 1, [3]⟩ :=
  C7_save_image_roundtrip trivCodec (fun s => if s = "K" then some [1, 1, 3] else none)
    ⟨0, none, .ok ["D"], .error "x", none, none, 9⟩ "data:image/png;base64,K"
    "data:image/png;base64" "K" [1, 1, 3] ⟨1, 1, [3]⟩ ["D"]
    trivCodec_roundtrip rfl (by decide) rfl rfl rfl rfl rfl rfl

/-- C9 counterexample: a JPEG-typed data URI is accepted by the save-image
command, but the file written is not a PNG file: the base64 payload is
written verbatim (no decode / PNG re-encode happens) and the file gets a
`.jpg` extension. -/
theorem C9_jpeg_saved_verbatim :
    save_image_data_url trivCodec (fun s => if s = "QUJD" then some [65, 66, 67] else none)
        ⟨0, none, .ok ["DL"], .error "e", none, none, 5⟩ "data:image/jpeg;base64,QUJD" =
      .ok ⟨["DL", "Coppy"], "coppy_5.jpg", [65, 66, 67]⟩ ∧
    ("coppy_5.jpg" : String) ≠ "coppy_5.png" :=
  ⟨rfl, by decide⟩

/-- C9 (amended): every image data URI accepted by the save-image command
produces a file named `coppy_<millisecond timestamp>.<extension>` under the
dedicated `Coppy` subfolder of the resolved or default output directory;
PNG-typed URIs are decoded and re-encoded so the file is a PNG file with a
`.png` extension, while JPEG-typed URIs are written verbatim with a `.jpg`
extension. -/
theorem C9_saved_file_shape (codec : PngCodec) (b64d : String → Option (List Nat))
    (env : FsEnv) (url meta b64s : String) (bytes : List Nat) (d : FsPath)
    (hsplit : splitOnceStr ',' url = some (meta, b64s))
    (hb : b64d b64s = some bytes)
    (hhwnd : env.lastHwnd = 0) (hdl : env.downloadDir = .ok d)
    (hcr : env.createDirErr = none) (hwr : env.writeErr = none) :
    ((strContains meta "image/jpeg" || strContains meta "image/jpg") = true →
      save_image_data_url codec b64d env url =
        .ok ⟨d ++ ["Coppy"], "coppy_" ++ toString env.nowMillis ++ "." ++ "jpg", bytes⟩) ∧
    (∀ img, (strContains meta "image/jpeg" || strContains meta "image/jpg") = false →
      codec.decode bytes = some img →
      save_image_data_url codec b64d env url =
        .ok ⟨d ++ ["Coppy"], "coppy_" ++ toString env.nowMillis ++ "." ++ "png",
          codec.encode img⟩) := by
  constructor
  · intro hj
    unfold save_image_data_url
    rw [hsplit]
    dsimp only
    rw [hb]
    dsimp only
    rw [if_pos hj]
    unfold save_bytes_to_default_dir
    simp [hhwnd, defaultBaseDir, hdl, hcr, hwr]
  · intro img hj hdec
    unfold save_image_data_url
    rw [hsplit]
    dsimp only
    rw [hb]
    dsimp only
    rw [if_neg (by simp [hj])]
    rw [hdec]
    unfold save_bytes_to_default_dir
    simp [hhwnd, defaultBaseDir, hdl, hcr, hwr]

/-- C9 witness: concrete instance of `C9_saved_file_shape`, JPEG branch. -/
theorem C9_saved_file_shape_witness :
    save_image_data_url trivCodec (fun s => if s = "OQ" then some [9, 9] else none)
        ⟨0, none, .ok ["E"], .error "e", none, none, 8⟩ "data:image/jpeg;base64,OQ" =
      .ok ⟨["E", "Coppy"], "coppy_8.jpg", [9, 9]⟩ :=
  (C9_saved_file_shape trivCodec (fun s => if s = "OQ" then some [9, 9] else none)
    ⟨0, none, .ok ["E"], .error "e", none, none, 8⟩ "data:image/jpeg;base64,OQ"
    "data:image/jpeg;base64" "OQ" [9, 9] ["E"] rfl rfl rfl rfl rfl rfl).1 (by decide)

end Coppy
